import Mathlib

/-!
Verification development for the Titan Memory semantic-highlight sidecar
service (src/highlight-service.py). The service wraps an opaque scoring
model behind two HTTP endpoints (`POST /highlight`, `GET /health`), with a
lifecycle that loads the model at startup and clears it at shutdown.

The embedding below translates the Python source directly:
- the process-wide state (`_model` reference and host GPU availability)
  becomes an explicit `ServiceState` record threaded through handlers;
- the opaque model capability becomes a record holding one `process`
  function; a call that may raise is a function into `Except`;
- floats carry no arithmetic in this layer (they are only defaulted and
  passed through), so they are embedded as rationals;
- each handler is a state-passing function returning its response (or the
  propagated exception) together with the resulting state, mirroring the
  source line by line (the source handlers perform no writes).
-/

/-- Errors raised by the external model capability; the service layer never
inspects them, so a plain message string suffices. -/
abbrev ModelErr := String

/-- Result mapping returned by the model capability's scoring call. Every
key may be absent (the source reads each with `dict.get` and a default),
so each field is an `Option`. -/
structure ScoreResult where
  highlighted_sentences : Option (List String)
  compression_rate : Option ℚ
  sentence_probabilities : Option (List ℚ)
deriving DecidableEq

/-- The opaque external model capability: one scoring operation,
`process(question, context, threshold, return_sentence_metrics)`, which
may raise (modelled as `Except`). -/
structure Model where
  process : String → String → ℚ → Bool → Except ModelErr ScoreResult

/-- Process-wide service state: the global `_model` reference (line 27 of
the source) and whether `torch.cuda.is_available()` holds on the host. -/
structure ServiceState where
  _model : Option Model
  gpu_available : Bool

/-- A parsed `/highlight` request body after validation and defaulting
(pydantic `HighlightRequest`, source lines 30-34). -/
structure HighlightRequest where
  question : String
  context : String
  threshold : ℚ
  return_sentence_metrics : Bool
deriving DecidableEq

/-- A raw `/highlight` request body in which the optional fields may be
absent; pydantic fills the declared defaults during validation. -/
structure HighlightRequestBody where
  question : String
  context : String
  threshold : Option ℚ
  return_sentence_metrics : Option Bool
deriving DecidableEq

/-- Pydantic validation of a raw body: required fields are kept, absent
`threshold` defaults to 0.5 and absent `return_sentence_metrics` to true
(source lines 30-34). -/
def parseHighlightRequest (b : HighlightRequestBody) : HighlightRequest :=
  { question := b.question
    context := b.context
    threshold := b.threshold.getD (1 / 2)
    return_sentence_metrics := b.return_sentence_metrics.getD true }

/-- Response shape of `/highlight` (source lines 37-40). -/
structure HighlightResponse where
  highlighted_sentences : List String
  compression_rate : ℚ
  sentence_probabilities : List ℚ
deriving DecidableEq

/-- Response shape of `/health` (source lines 100-104). -/
structure HealthResponse where
  status : String
  model_loaded : Bool
  gpu_available : Bool
deriving DecidableEq

/-- The degraded response returned when no model is held (source lines
77-81): empty highlighted sentences, compression rate 0, empty
probabilities. -/
def emptyResponse : HighlightResponse :=
  { highlighted_sentences := []
    compression_rate := 0
    sentence_probabilities := [] }

/-- Default-filling normalization applied to a capability result (source
lines 90-94): each key read with `dict.get` and its default. -/
def fillDefaults (r : ScoreResult) : HighlightResponse :=
  { highlighted_sentences := r.highlighted_sentences.getD []
    compression_rate := r.compression_rate.getD 0
    sentence_probabilities := r.sentence_probabilities.getD [] }

/-- The `/highlight` handler (source lines 73-94). If no model is held it
returns the degraded empty response; otherwise it calls the capability
with the request fields and default-fills each absent result key. An
exception from the capability is not caught: it propagates as the
`Except.error` branch (which `Except.map` leaves untouched). The handler
performs no writes, so the returned state is the input state in every
branch. -/
def highlight (st : ServiceState) (req : HighlightRequest) :
    Except ModelErr HighlightResponse × ServiceState :=
  match st._model with
  | none => (.ok emptyResponse, st)
  | some m =>
      ((m.process req.question req.context req.threshold
          req.return_sentence_metrics).map fillDefaults, st)

/-- HTTP status of a `/highlight` outcome: 200 on a returned response, a
server error (500) when the capability's exception propagated. -/
def highlightHttpStatus : Except ModelErr HighlightResponse → Nat
  | .ok _ => 200
  | .error _ => 500

/-- The `/health` handler (source lines 97-104): always reports status
"ok", whether the model reference is held, and GPU availability. It
performs no writes. -/
def health (st : ServiceState) : HealthResponse × ServiceState :=
  ({ status := "ok"
     model_loaded := st._model.isSome
     gpu_available := st.gpu_available }, st)

/-- HTTP status of `/health`: it is always 200. -/
def healthHttpStatus : Nat := 200

/-- State before startup: no model reference held (source line 27). -/
def initState (gpu : Bool) : ServiceState :=
  { _model := none, gpu_available := gpu }

/-- Lifecycle start (source lines 46-57): on successful load the model
reference is stored in process-wide state. -/
def startService (st : ServiceState) (m : Model) : ServiceState :=
  { st with _model := some m }

/-- Lifecycle stop (source lines 61-63): the model reference is cleared
unconditionally. -/
def stopService (st : ServiceState) : ServiceState :=
  { st with _model := none }

/-- The lifecycle readiness query: whether a model reference is held. -/
def is_ready (st : ServiceState) : Bool :=
  st._model.isSome

/-- Startup configuration resolved from process arguments (source lines
108-117). -/
structure ServiceArgs where
  port : Nat
  model_path : String
  host : String
deriving DecidableEq

/-- Outcome of the startup procedure: either the process exited with a
code after emitting log lines, or the HTTP listener was started on a host
and port. -/
inductive MainOutcome where
  | exited (code : Nat) (log : List String)
  | serving (host : String) (port : Nat)
deriving DecidableEq

/-- The startup procedure `main` (source lines 107-128), abstracted over
the filesystem (`os.path.exists`). If the model path does not exist the
process logs two diagnostics and exits with status 1 before any listener
is bound; otherwise the listener is started on the configured host and
port. -/
def mainStartup (path_exists : String → Bool) (args : ServiceArgs) :
    MainOutcome :=
  if !path_exists args.model_path then
    .exited 1
      ["Model not found at: " ++ args.model_path,
       "Download it first: hf download zilliz/semantic-highlight-bilingual-v1"]
  else
    .serving args.host args.port

/-- Unfolding of `highlight` when a model reference is held: the handler
invokes `process` with exactly the request's four fields and
default-fills the result. -/
theorem highlight_model_eq (st : ServiceState) (m : Model)
    (req : HighlightRequest) (hm : st._model = some m) :
    highlight st req =
      ((m.process req.question req.context req.threshold
          req.return_sentence_metrics).map fillDefaults, st) := by
  unfold highlight
  rw [hm]

/-- A concrete request matching the spec's example (threshold 0.5). -/
def reqA : HighlightRequest :=
  { question := "q"
    context := "c"
    threshold := 1 / 2
    return_sentence_metrics := true }

/-- A concrete request with a threshold outside [0,1]. -/
def reqOut : HighlightRequest :=
  { question := "what"
    context := "doc"
    threshold := 7 / 2
    return_sentence_metrics := false }

/-- A capability that returns the spec example's full result. -/
def abModel : Model :=
  ⟨fun _ _ _ _ => .ok
    { highlighted_sentences := some ["A.", "B."]
      compression_rate := some (1 / 2)
      sentence_probabilities := some [9 / 10, 1 / 10] }⟩

/-- A capability that returns a result missing the probability key. -/
def sparseModel : Model :=
  ⟨fun _ _ _ _ => .ok
    { highlighted_sentences := some ["A."]
      compression_rate := some (1 / 2)
      sentence_probabilities := none }⟩

/-- A capability that raises on every call. -/
def boomModel : Model :=
  ⟨fun _ _ _ _ => .error "boom"⟩

/-- A capability that echoes its arguments back in the result, to observe
what the handler passed in. -/
def spyModel : Model :=
  ⟨fun q c t w => .ok
    { highlighted_sentences := some [q, c]
      compression_rate := some t
      sentence_probabilities := some [if w then 1 else 0] }⟩

/-- Service state holding `abModel`. -/
def stAB : ServiceState := { _model := some abModel, gpu_available := false }

/-- Service state holding `sparseModel`. -/
def stSparse : ServiceState :=
  { _model := some sparseModel, gpu_available := false }

/-- Service state holding `boomModel`. -/
def stBoom : ServiceState :=
  { _model := some boomModel, gpu_available := false }

/-- Service state holding `spyModel`. -/
def stSpy : ServiceState := { _model := some spyModel, gpu_available := true }

/-- C1: For every request to `/highlight` made while no model reference is
held, the handler returns exactly the degraded response (empty highlighted
sentences, compression rate 0, empty probabilities) with the state
untouched, as an HTTP 200 success rather than an error. -/
theorem highlight_no_model (st : ServiceState) (req : HighlightRequest)
    (h : st._model = none) :
    highlight st req = (.ok emptyResponse, st) ∧
    highlightHttpStatus (highlight st req).1 = 200 := by
  have h1 : highlight st req = (.ok emptyResponse, st) := by
    unfold highlight
    rw [h]
  exact ⟨h1, by rw [h1]; rfl⟩

/-- Witness for C1 at the pre-start state and a concrete request. -/
theorem highlight_no_model_witness :
    highlight (initState false) reqA = (.ok emptyResponse, initState false) ∧
    highlightHttpStatus (highlight (initState false) reqA).1 = 200 :=
  highlight_no_model (initState false) reqA rfl

/-- C2: For every request handled with a model present whose capability
returns a result, each key missing from the result mapping is replaced by
its default in the response (absent sentence list becomes [], absent
compression rate becomes 0, absent probability list becomes []), and a
partial result shape yields HTTP 200, never an error. -/
theorem highlight_default_fill (st : ServiceState) (m : Model)
    (req : HighlightRequest) (r : ScoreResult)
    (hm : st._model = some m)
    (hr : m.process req.question req.context req.threshold
        req.return_sentence_metrics = .ok r) :
    (highlight st req).1 = .ok (fillDefaults r) ∧
    (r.highlighted_sentences = none →
      (fillDefaults r).highlighted_sentences = []) ∧
    (r.compression_rate = none → (fillDefaults r).compression_rate = 0) ∧
    (r.sentence_probabilities = none →
      (fillDefaults r).sentence_probabilities = []) ∧
    highlightHttpStatus (highlight st req).1 = 200 := by
  rw [highlight_model_eq st m req hm, hr]
  refine ⟨rfl, ?_, ?_, ?_, rfl⟩ <;> intro h <;> simp [fillDefaults, h]

/-- Witness for C2 at a capability whose result lacks the probability key:
the response carries `sentence_probabilities = []`. -/
theorem highlight_default_fill_witness :
    (highlight stSparse reqA).1 =
      .ok (fillDefaults
        { highlighted_sentences := some ["A."]
          compression_rate := some (1 / 2)
          sentence_probabilities := none }) ∧
    (some ["A."] = (none : Option (List String)) →
      (fillDefaults
        { highlighted_sentences := some ["A."]
          compression_rate := some (1 / 2)
          sentence_probabilities := none }).highlighted_sentences = []) ∧
    (some (1 / 2 : ℚ) = none →
      (fillDefaults
        { highlighted_sentences := some ["A."]
          compression_rate := some (1 / 2)
          sentence_probabilities := none }).compression_rate = 0) ∧
    ((none : Option (List ℚ)) = none →
      (fillDefaults
        { highlighted_sentences := some ["A."]
          compression_rate := some (1 / 2)
          sentence_probabilities := none }).sentence_probabilities = []) ∧
    highlightHttpStatus (highlight stSparse reqA).1 = 200 :=
  highlight_default_fill stSparse sparseModel reqA
    { highlighted_sentences := some ["A."]
      compression_rate := some (1 / 2)
      sentence_probabilities := none } rfl rfl

/-- C3: For every service state, `/health` answers HTTP 200 with status
"ok" (never unhealthy), and its `model_loaded` field equals the lifecycle
state exactly: true iff a model reference is held, hence true after a
successful start, false after stop and false before start. It also never
changes the state. -/
theorem health_contract (st : ServiceState) (m : Model) (gpu : Bool) :
    healthHttpStatus = 200 ∧
    (health st).1.status = "ok" ∧
    ((health st).1.model_loaded = true ↔ is_ready st = true) ∧
    ((health st).1.model_loaded = true ↔ st._model.isSome = true) ∧
    (health (startService st m)).1.model_loaded = true ∧
    (health (stopService st)).1.model_loaded = false ∧
    (health (initState gpu)).1.model_loaded = false :=
  ⟨rfl, rfl, Iff.rfl, Iff.rfl, rfl, rfl, rfl⟩

/-- C4: For every request handled with a model present, if the
capability's result contains all three keys, the `/highlight` response
carries those values unchanged, with HTTP 200. -/
theorem highlight_full_result (st : ServiceState) (m : Model)
    (req : HighlightRequest) (hs : List String) (cr : ℚ) (sp : List ℚ)
    (hm : st._model = some m)
    (hr : m.process req.question req.context req.threshold
        req.return_sentence_metrics = .ok
      { highlighted_sentences := some hs
        compression_rate := some cr
        sentence_probabilities := some sp }) :
    (highlight st req).1 = .ok
      { highlighted_sentences := hs
        compression_rate := cr
        sentence_probabilities := sp } ∧
    highlightHttpStatus (highlight st req).1 = 200 := by
  rw [highlight_model_eq st m req hm, hr]
  exact ⟨rfl, rfl⟩

/-- Witness for C4 at the spec's example: result
`(["A.", "B."], 0.5, [0.9, 0.1])` for threshold 0.5 is returned as
exactly that payload. -/
theorem highlight_full_result_witness :
    (highlight stAB reqA).1 = .ok
      { highlighted_sentences := ["A.", "B."]
        compression_rate := 1 / 2
        sentence_probabilities := [9 / 10, 1 / 10] } ∧
    highlightHttpStatus (highlight stAB reqA).1 = 200 :=
  highlight_full_result stAB abModel reqA ["A.", "B."] (1 / 2)
    [9 / 10, 1 / 10] rfl rfl

/-- C5: For every startup invocation whose model path does not exist, the
process exits with the non-zero status 1 after emitting the diagnostics
telling the operator where the model was missing and how to download it,
and the HTTP listener is never started in that run. -/
theorem startup_missing_path (fs : String → Bool) (args : ServiceArgs)
    (h : fs args.model_path = false) :
    mainStartup fs args = .exited 1
      ["Model not found at: " ++ args.model_path,
       "Download it first: hf download zilliz/semantic-highlight-bilingual-v1"] ∧
    (∀ host port, mainStartup fs args ≠ .serving host port) ∧
    ∀ code log, mainStartup fs args = .exited code log → code ≠ 0 := by
  have h1 : mainStartup fs args = .exited 1
      ["Model not found at: " ++ args.model_path,
       "Download it first: hf download zilliz/semantic-highlight-bilingual-v1"] := by
    simp [mainStartup, h]
  refine ⟨h1, ?_, ?_⟩
  · intro host port
    rw [h1]
    intro hc
    cases hc
  · intro code log
    rw [h1]
    intro hc
    cases hc
    decide

/-- Witness for C5 at an empty filesystem and the default configuration. -/
theorem startup_missing_path_witness :
    mainStartup (fun _ => false)
      { port := 8079
        model_path := "./models/semantic-highlight-bilingual-v1"
        host := "127.0.0.1" } = .exited 1
      ["Model not found at: " ++ "./models/semantic-highlight-bilingual-v1",
       "Download it first: hf download zilliz/semantic-highlight-bilingual-v1"] ∧
    (∀ host port, mainStartup (fun _ => false)
      { port := 8079
        model_path := "./models/semantic-highlight-bilingual-v1"
        host := "127.0.0.1" } ≠ .serving host port) ∧
    ∀ code log, mainStartup (fun _ => false)
      { port := 8079
        model_path := "./models/semantic-highlight-bilingual-v1"
        host := "127.0.0.1" } = .exited code log → code ≠ 0 :=
  startup_missing_path (fun _ => false)
    { port := 8079
      model_path := "./models/semantic-highlight-bilingual-v1"
      host := "127.0.0.1" } rfl

/-- C6: For every request handled with a model present, if the
capability's scoring call raises, the handler does not catch or translate
it: the very exception propagates out as a non-200 server-side failure,
and the held model reference is unchanged by the failed request. -/
theorem highlight_error_propagates (st : ServiceState) (m : Model)
    (req : HighlightRequest) (e : ModelErr)
    (hm : st._model = some m)
    (he : m.process req.question req.context req.threshold
        req.return_sentence_metrics = .error e) :
    highlight st req = (.error e, st) ∧
    highlightHttpStatus (highlight st req).1 = 500 ∧
    (highlight st req).2._model = some m := by
  rw [highlight_model_eq st m req hm, he]
  exact ⟨rfl, rfl, hm⟩

/-- Witness for C6 at a capability that raises on every call. -/
theorem highlight_error_propagates_witness :
    highlight stBoom reqA = (.error "boom", stBoom) ∧
    highlightHttpStatus (highlight stBoom reqA).1 = 500 ∧
    (highlight stBoom reqA).2._model = some boomModel :=
  highlight_error_propagates stBoom boomModel reqA "boom" rfl rfl

/-- C7: For every request handled with a model present, the handler passes
the request's threshold (any rational, including values outside [0,1]),
question, context and metrics flag to the capability unmodified — the
response is exactly the capability's output at those arguments, default
filling aside — and request validation only fills the documented defaults
(threshold 0.5, metrics flag true) for absent fields, keeping present
fields and the required strings unchanged. -/
theorem passthrough_no_normalization (st : ServiceState) (m : Model)
    (req : HighlightRequest) (hm : st._model = some m) :
    (highlight st req).1 =
      (m.process req.question req.context req.threshold
        req.return_sentence_metrics).map fillDefaults ∧
    ∀ b : HighlightRequestBody,
      (parseHighlightRequest b).question = b.question ∧
      (parseHighlightRequest b).context = b.context ∧
      (parseHighlightRequest b).threshold = b.threshold.getD (1 / 2) ∧
      (parseHighlightRequest b).return_sentence_metrics =
        b.return_sentence_metrics.getD true :=
  ⟨by rw [highlight_model_eq st m req hm], fun b => ⟨rfl, rfl, rfl, rfl⟩⟩

/-- Witness for C7 at an argument-echoing capability and a request whose
threshold 7/2 lies outside [0,1]: the echoed compression rate is 7/2. -/
theorem passthrough_no_normalization_witness :
    (highlight stSpy reqOut).1 =
      (spyModel.process reqOut.question reqOut.context reqOut.threshold
        reqOut.return_sentence_metrics).map fillDefaults ∧
    ∀ b : HighlightRequestBody,
      (parseHighlightRequest b).question = b.question ∧
      (parseHighlightRequest b).context = b.context ∧
      (parseHighlightRequest b).threshold = b.threshold.getD (1 / 2) ∧
      (parseHighlightRequest b).return_sentence_metrics =
        b.return_sentence_metrics.getD true :=
  passthrough_no_normalization stSpy spyModel reqOut rfl

/-- C8: The lifecycle stop operation is idempotent: it clears the model
reference unconditionally, repeating it is a no-op that raises nothing
(it is a total function), and after any number of repeated stops
`is_ready` is false. -/
theorem stop_idempotent (st : ServiceState) (n : ℕ) :
    stopService (stopService st) = stopService st ∧
    is_ready (stopService st) = false ∧
    is_ready (stopService^[n + 1] st) = false := by
  refine ⟨rfl, rfl, ?_⟩
  rw [Function.iterate_succ_apply']
  rfl

/-- C9: Request handling is stateless with respect to the shared model
state: neither `/highlight` nor `/health` mutates the process-wide state
in any branch; `/health` in particular has no side effects. -/
theorem handlers_stateless (st : ServiceState) (req : HighlightRequest) :
    (highlight st req).2 = st ∧ (health st).2 = st := by
  constructor
  · cases hm : st._model with
    | none => simp [highlight, hm]
    | some m => simp [highlight, hm]
  · rfl

/-- C10: When no model reference is held, the `/highlight` outcome is
independent of the request contents: any two requests processed in the
model-absent state produce identical responses and states. -/
theorem degraded_noninterference (st : ServiceState)
    (req1 req2 : HighlightRequest) (h : st._model = none) :
    highlight st req1 = highlight st req2 := by
  simp [highlight, h]

/-- Witness for C10 at two requests differing in every field. -/
theorem degraded_noninterference_witness :
    highlight (initState true) reqA = highlight (initState true) reqOut :=
  degraded_noninterference (initState true) reqA reqOut rfl
